import Mathlib

/-!
Verification of the event-to-notification core of a Plane → Discord webhook
bridge (src/main.go). The handler is embedded shallowly: the JSON document a
request parses to is a `JValue` tree, Go's defaulting type assertions become
total accessor functions, the signature check is a full HMAC-SHA-256 over byte
lists, and the HTTP handler becomes a pure function from (config, body bytes,
signature bytes, parsed payload, debounce state, current Unix second) to the
response status, the optionally emitted embed, and the new debounce state.
-/

namespace Plane

/-- A JSON value as `encoding/json` unmarshals it into a Go `interface`:
null (also used for an absent key, since a Go map read returns the nil
interface either way), strings, booleans, numbers (carried with the string Go's
`%v` verb renders the float64 as; no claim depends on numeric arithmetic),
arrays and objects. -/
inductive JValue where
  | null
  | str (s : String)
  | boolean (b : Bool)
  | num (render : String)
  | arr (elems : List JValue)
  | obj (fields : List (String × JValue))

/-- A parsed JSON object: what a Go `map[string]interface` holds. -/
abbrev JObj := List (String × JValue)

/-- Reading `m[k]` from a Go `map[string]interface`: the nil interface
(modelled as `JValue.null`) when the key is absent. -/
def jGet (o : JObj) (k : String) : JValue :=
  match List.lookup k o with
  | some v => v
  | none => JValue.null

/-- Go's defaulting type assertion `v.(string)`: the zero value `""` unless the
value really is a string (a nil interface asserts to false). -/
def asStr : JValue → String
  | .str s => s
  | _ => ""

/-- Go's defaulting type assertion `v.(map[string]interface)`. -/
def asObj : JValue → JObj
  | .obj o => o
  | _ => []

/-- Go's defaulting type assertion `v.([]interface)`. -/
def asArr : JValue → List JValue
  | .arr xs => xs
  | _ => []

/-- Whether the value is a JSON object, i.e. whether the two-result type
assertion `v.(map[string]interface)` reports ok. -/
def JValue.isObj : JValue → Bool
  | .obj _ => true
  | _ => false

/-- Join strings with a single space, as `fmt` separates aggregate elements. -/
def joinSpace : List String → String
  | [] => ""
  | [s] => s
  | s :: rest => s ++ " " ++ joinSpace rest

/-- Insert a rendered key/value pair keeping keys sorted (Go's `fmt` prints
map keys in sorted order). -/
def insertPair (p : String × String) : List (String × String) → List (String × String)
  | [] => [p]
  | q :: qs => if p.1 ≤ q.1 then p :: q :: qs else q :: insertPair p qs

/-- Sort rendered key/value pairs by key. -/
def sortPairs : List (String × String) → List (String × String)
  | [] => []
  | p :: ps => insertPair p (sortPairs ps)

mutual
/-- Go's `fmt.Sprintf` with the `%v` verb on an `interface` holding an
unmarshalled JSON value: the nil interface prints the fixed sentinel `<nil>`,
strings print bare, booleans as `true`/`false`, numbers as their float64
rendering, slices space-separated in brackets, maps as `map[...]` with keys
sorted. -/
def goFmtV : JValue → String
  | .null => "<nil>"
  | .str s => s
  | .boolean b => if b then "true" else "false"
  | .num r => r
  | .arr xs => "[" ++ goFmtArr xs ++ "]"
  | .obj fs => "map[" ++ joinSpace ((sortPairs (goFmtPairs fs)).map (fun p => p.1 ++ ":" ++ p.2)) ++ "]"

/-- The `%v` rendering of a slice's elements, space-separated. -/
def goFmtArr : List JValue → String
  | [] => ""
  | [x] => goFmtV x
  | x :: rest => goFmtV x ++ " " ++ goFmtArr rest

/-- The `%v` rendering of each map entry's value, keys kept raw for sorting. -/
def goFmtPairs : List (String × JValue) → List (String × String)
  | [] => []
  | (k, v) :: fs => (k, goFmtV v) :: goFmtPairs fs
end

/- ### SHA-256 and HMAC (crypto/sha256, crypto/hmac)

Bytes are `Nat`s below 256, 32-bit words are `Nat`s reduced mod 2^32. -/

/-- Reduce to a 32-bit word. -/
def mask32 (x : Nat) : Nat := x % 4294967296

/-- Rotate a 32-bit word right by `n`. -/
def rotr32 (n x : Nat) : Nat := mask32 ((x >>> n) ||| (x <<< (32 - n)))

/-- SHA-256 schedule sigma-0. -/
def smallSigma0 (x : Nat) : Nat := rotr32 7 x ^^^ rotr32 18 x ^^^ (x >>> 3)

/-- SHA-256 schedule sigma-1. -/
def smallSigma1 (x : Nat) : Nat := rotr32 17 x ^^^ rotr32 19 x ^^^ (x >>> 10)

/-- SHA-256 compression Sigma-0. -/
def bigSigma0 (x : Nat) : Nat := rotr32 2 x ^^^ rotr32 13 x ^^^ rotr32 22 x

/-- SHA-256 compression Sigma-1. -/
def bigSigma1 (x : Nat) : Nat := rotr32 6 x ^^^ rotr32 11 x ^^^ rotr32 25 x

/-- The 64 SHA-256 round constants, written in decimal. -/
def sha256K : List Nat :=
  [1116352408, 1899447441, 3049323471, 3921009573, 961987163,
   1508970993, 2453635748, 2870763221, 3624381080, 310598401,
   607225278, 1426881987, 1925078388, 2162078206, 2614888103,
   3248222580, 3835390401, 4022224774, 264347078, 604807628,
   770255983, 1249150122, 1555081692, 1996064986, 2554220882,
   2821834349, 2952996808, 3210313671, 3336571891, 3584528711,
   113926993, 338241895, 666307205, 773529912, 1294757372,
   1396182291, 1695183700, 1986661051, 2177026350, 2456956037,
   2730485921, 2820302411, 3259730800, 3345764771, 3516065817,
   3600352804, 4094571909, 275423344, 430227734, 506948616,
   659060556, 883997877, 958139571, 1322822218, 1537002063,
   1747873779, 1955562222, 2024104815, 2227730452, 2361852424,
   2428436474, 2756734187, 3204031479, 3329325298]

/-- The SHA-256 initial hash state, written in decimal. -/
def sha256Init : List Nat :=
  [1779033703, 3144134277, 1013904242, 2773480762, 1359893119,
   2600822924, 528734635, 1541459225]

/-- Big-endian split of four bytes into one 32-bit word, applied along a list. -/
def bytesToWords : List Nat → List Nat
  | b0 :: b1 :: b2 :: b3 :: rest =>
      (b0 * 16777216 + b1 * 65536 + b2 * 256 + b3) :: bytesToWords rest
  | _ => []

/-- Extend the 16 message words of a block to the 64-entry schedule. -/
def extendSchedule (w : Array Nat) : Array Nat :=
  (List.range 48).foldl (fun acc _ =>
    let n := acc.size
    acc.push (mask32 (acc.getD (n - 16) 0 + smallSigma0 (acc.getD (n - 15) 0) +
                      acc.getD (n - 7) 0 + smallSigma1 (acc.getD (n - 2) 0)))) w

/-- The eight working variables of the SHA-256 compression loop. -/
structure SHAState where
  a : Nat
  b : Nat
  c : Nat
  d : Nat
  e : Nat
  f : Nat
  g : Nat
  h : Nat

/-- One SHA-256 compression round with round constant and schedule word. -/
def shaRound (s : SHAState) (kw : Nat × Nat) : SHAState :=
  let t1 := mask32 (s.h + bigSigma1 s.e +
    ((s.e &&& s.f) ^^^ ((4294967295 ^^^ s.e) &&& s.g)) + kw.1 + kw.2)
  let t2 := mask32 (bigSigma0 s.a + ((s.a &&& s.b) ^^^ (s.a &&& s.c) ^^^ (s.b &&& s.c)))
  ⟨mask32 (t1 + t2), s.a, s.b, s.c, mask32 (s.d + t1), s.e, s.f, s.g⟩

/-- Compress one 64-byte block into the running hash state. -/
def processBlock (hs : List Nat) (block : List Nat) : List Nat :=
  let w := extendSchedule (Array.mk (bytesToWords block))
  let s0 : SHAState :=
    ⟨hs.getD 0 0, hs.getD 1 0, hs.getD 2 0, hs.getD 3 0,
     hs.getD 4 0, hs.getD 5 0, hs.getD 6 0, hs.getD 7 0⟩
  let s := (sha256K.zip w.toList).foldl shaRound s0
  [mask32 (hs.getD 0 0 + s.a), mask32 (hs.getD 1 0 + s.b),
   mask32 (hs.getD 2 0 + s.c), mask32 (hs.getD 3 0 + s.d),
   mask32 (hs.getD 4 0 + s.e), mask32 (hs.getD 5 0 + s.f),
   mask32 (hs.getD 6 0 + s.g), mask32 (hs.getD 7 0 + s.h)]

/-- Fold the compression function over consecutive 64-byte blocks. -/
def shaBlocks (hs : List Nat) (l : List Nat) : List Nat :=
  match l with
  | [] => hs
  | x :: xs => shaBlocks (processBlock hs (List.take 64 (x :: xs))) (List.drop 64 (x :: xs))
termination_by l.length
decreasing_by simp [List.length_drop]; omega

/-- The bit length of the message as eight big-endian bytes. -/
def u64beBytes (n : Nat) : List Nat :=
  [(n >>> 56) % 256, (n >>> 48) % 256, (n >>> 40) % 256, (n >>> 32) % 256,
   (n >>> 24) % 256, (n >>> 16) % 256, (n >>> 8) % 256, n % 256]

/-- One 32-bit word as four big-endian bytes. -/
def u32beBytes (n : Nat) : List Nat :=
  [(n >>> 24) % 256, (n >>> 16) % 256, (n >>> 8) % 256, n % 256]

/-- SHA-256 padding: a 0x80 byte, zeros to 56 mod 64, then the bit length. -/
def padMessage (msg : List Nat) : List Nat :=
  msg ++ 128 :: List.replicate ((119 - msg.length % 64) % 64) 0 ++ u64beBytes (msg.length * 8)

/-- SHA-256 of a byte list, as a 32-byte list. -/
def sha256 (msg : List Nat) : List Nat :=
  ((shaBlocks sha256Init (padMessage msg)).map u32beBytes).flatten

/-- HMAC-SHA-256 (`crypto/hmac` with `sha256.New`): hash an over-long key,
zero-pad to the 64-byte block size, then the nested ipad/opad hashes. -/
def hmacSha256 (key msg : List Nat) : List Nat :=
  let k0 := if 64 < key.length then sha256 key else key
  let k1 := k0 ++ List.replicate (64 - k0.length) 0
  sha256 ((k1.map (fun b => b ^^^ 92)) ++ sha256 ((k1.map (fun b => b ^^^ 54)) ++ msg))

/-- One lowercase hex digit as its ASCII byte. -/
def hexDigitByte (n : Nat) : Nat := if n < 10 then 48 + n else 87 + n

/-- Go's `hex.EncodeToString`, kept as the ASCII bytes the source compares
(`[]byte(expected)`). -/
def hexEncodeBytes (bs : List Nat) : List Nat :=
  (bs.map (fun b => [hexDigitByte (b / 16), hexDigitByte (b % 16)])).flatten

/-- Go's `hmac.Equal`: byte-slice equality (its constant-time execution is a
timing property outside a value-level embedding). -/
def hmacEqual (a b : List Nat) : Bool := a == b

/-- The function `verifySignature` (src/main.go lines 82-90): an empty secret disables
verification; otherwise compare the supplied signature with the hex-encoded
HMAC-SHA-256 of the body under the secret. Strings are carried as their byte
lists, matching the `[]byte` conversions in the source. -/
def verifySignature (secret body signature : List Nat) : Bool :=
  if secret = [] then true
  else hmacEqual (hexEncodeBytes (hmacSha256 secret body)) signature

/- ### Discord embed structures (src/main.go lines 43-71) -/

/-- The `EmbedAuthor` struct. -/
structure EmbedAuthor where
  name : String
  iconURL : String
deriving DecidableEq

/-- The `EmbedImage` struct. -/
structure EmbedImage where
  url : String
deriving DecidableEq

/-- The `EmbedFooter` struct. -/
structure EmbedFooter where
  text : String
  iconURL : String
deriving DecidableEq

/-- The `EmbedField` struct. -/
structure EmbedField where
  name : String
  value : String
  inl : Bool
deriving DecidableEq

/-- The `DiscordEmbed` struct. Its Go zero values are the empty strings,
color 0, nil pointers and a nil slice. -/
structure DiscordEmbed where
  title : String
  description : String
  color : Nat
  author : Option EmbedAuthor
  thumbnail : Option EmbedImage
  footer : Option EmbedFooter
  fields : List EmbedField
deriving DecidableEq

/- ### Handler state and configuration -/

/-- The `lastUpdated` map (src/main.go line 38): entity id → Unix second of
the last accepted update. A Go `map[string]int64` read defaults to 0, so the
state is an association list read through `luGet`. -/
abbrev LastUpdated := List (String × Int)

/-- Read `lastUpdated[id]`, defaulting to 0 as a Go map read does. -/
def luGet (st : LastUpdated) (k : String) : Int :=
  match List.lookup k st with
  | some v => v
  | none => 0

/-- Write `lastUpdated[id] = now` (the newest binding shadows older ones). -/
def luSet (st : LastUpdated) (k : String) (v : Int) : LastUpdated :=
  (k, v) :: st

/-- The environment-derived configuration the handler reads
(src/main.go lines 19-26); the secret is carried as its bytes. -/
structure Config where
  workspaceName : String
  appURL : String
  webhookSecret : List Nat

/-- What one request observably produces: the HTTP status written, the embed
handed to `sendToDiscord` (if any), and the debounce map afterwards. -/
structure HandlerResult where
  status : Nat
  sent : Option DiscordEmbed
  lastUpdated : LastUpdated
deriving DecidableEq

/- ### The webhook handler (src/main.go lines 107-323) -/

/-- The priority display vocabulary (src/main.go lines 28-34). -/
def priorities : List (String × String) :=
  [("urgent", "🔴 Urgent!"), ("high", "🟠 High"), ("medium", "🟡 Medium"),
   ("low", "🔵 Low"), ("none", "⚫ None")]

/-- Read `priorities[k]` with the Go map's `""` default. -/
def prioLookup (k : String) : String :=
  match List.lookup k priorities with
  | some v => v
  | none => ""

/-- The update-field whitelist (src/main.go lines 197-206), as the membership
test `allowed[field]` performs. -/
def allowedField (f : String) : Bool :=
  f == "name" || f == "priority" || f == "state" || f == "state_id" ||
  f == "assignee_ids" || f == "target_date" || f == "parent" || f == "estimate_point"

/-- Whether a URL string is root-relative: Go's `s[0] == '/'` guarded by
nonemptiness. -/
def startsWithSlash (s : String) : Bool :=
  match s.data with
  | [] => false
  | c :: _ => c == '/'

/-- The workspace icon URL `AppURL + "/img/plane-icon.png"`. -/
def defaultIcon (cfg : Config) : String := cfg.appURL ++ "/img/plane-icon.png"

/-- The actor name `activity.actor.display_name` with defaulting assertions
(src/main.go lines 128-129). -/
def actorNameOf (activity : JObj) : String :=
  asStr (jGet (asObj (jGet activity "actor")) "display_name")

/-- The actor icon (src/main.go lines 130-136): `avatar`, falling back to
`avatar_url`, absolutized against the base URL when root-relative. -/
def actorIconOf (cfg : Config) (activity : JObj) : String :=
  let actor := asObj (jGet activity "actor")
  let icon0 := asStr (jGet actor "avatar")
  let icon1 := if icon0 == "" then asStr (jGet actor "avatar_url") else icon0
  if startsWithSlash icon1 then cfg.appURL ++ icon1 else icon1

/-- The embed as initialized before event dispatch (src/main.go lines
138-153): workspace author and fixed footer, then the actor's name and (when
present) icon substituted in. -/
def baseEmbed (cfg : Config) (activity : JObj) : DiscordEmbed :=
  let actorName := actorNameOf activity
  let actorIcon := actorIconOf cfg activity
  let e : DiscordEmbed :=
    { title := ""
      description := ""
      color := 0
      author := some ⟨cfg.workspaceName, defaultIcon cfg⟩
      thumbnail := none
      footer := some ⟨"Plane Bridge", ""⟩
      fields := [] }
  if actorName == "" then e
  else { e with author := some ⟨actorName,
          if actorIcon == "" then defaultIcon cfg else actorIcon⟩ }

/-- Mutate only `embed.Author.Name`, keeping the icon, as the per-action
branches do. -/
def setAuthorName (e : DiscordEmbed) (n : String) : DiscordEmbed :=
  { e with author := some ⟨n, (e.author.getD ⟨"", ""⟩).iconURL⟩ }

/-- The `created` branch (src/main.go lines 163-172). -/
def renderCreated (e0 : DiscordEmbed) (actorName : String) (data : JObj)
    (name : String) : DiscordEmbed :=
  let e1 := if actorName == "" then e0
            else setAuthorName e0 (actorName ++ " created an issue")
  { e1 with
    color := 8184715
    title := name
    description := goFmtV (jGet data "description_stripped")
    fields := e1.fields ++
      [⟨"Priority", prioLookup (asStr (jGet data "priority")), true⟩] }

/-- The `deleted` branch (src/main.go lines 174-181). -/
def renderDeleted (e0 : DiscordEmbed) (actorName issueID : String) : DiscordEmbed :=
  let e1 := if actorName == "" then setAuthorName e0 "Work item deleted"
            else setAuthorName e0 (actorName ++ " deleted an issue")
  { e1 with
    color := 16415088
    description := "ID: `" ++ issueID ++ "`" }

/-- The `state`/`state_id` normalization (src/main.go lines 222-232): rename
the field to "State", read the new display value from `data.state.name` when
that object exists (keeping the raw rendering otherwise), and collapse the old
value to "None" or "Changed". -/
def normalizeState (data : JObj) (oldV newV : String) : String × String × String :=
  ("State",
   if oldV == "null" || oldV == "<nil>" then "None" else "Changed",
   match jGet data "state" with
   | JValue.obj stf => asStr (jGet stf "name")
   | _ => newV)

/-- Collect `display_name` of each assignee that is an object with a string
name (src/main.go lines 237-244). -/
def assigneeNames : List JValue → List String
  | [] => []
  | JValue.obj amap :: rest =>
      match jGet amap "display_name" with
      | JValue.str d => d :: assigneeNames rest
      | _ => assigneeNames rest
  | _ :: rest => assigneeNames rest

/-- Comma-join, as the accumulation loop builds the assignee list. -/
def joinComma : List String → String
  | [] => ""
  | [s] => s
  | s :: rest => s ++ ", " ++ joinComma rest

/-- The `assignee_ids` normalization (src/main.go lines 234-259): rename to
"Assignees", list current assignees (or "None"), collapse the old value. -/
def normalizeAssignees (data : JObj) (oldV : String) : String × String × String :=
  let names := assigneeNames (asArr (jGet data "assignees"))
  ("Assignees",
   if oldV == "[]" || oldV == "null" || oldV == "<nil>" then "None" else "Previously set",
   if names = [] then "None" else joinComma names)

/-- The thumbnail side effect (src/main.go lines 261-275): the first
assignee's avatar (falling back to `avatar_url`), when it is an object with a
nonempty avatar, absolutized when root-relative. -/
def firstAvatarThumb (appURL : String) : List JValue → Option EmbedImage
  | [] => none
  | first :: _ =>
      match first with
      | JValue.obj fm =>
          let fav0 := asStr (jGet fm "avatar")
          let fav := if fav0 == "" then asStr (jGet fm "avatar_url") else fav0
          if fav == "" then none
          else some ⟨if startsWithSlash fav then appURL ++ fav else fav⟩
      | _ => none

/-- The body of the `updated` branch after the debounce and whitelist gates
(src/main.go lines 211-282): priority mapping, state and assignee
normalization, the thumbnail side effect, and the "Change" field. -/
def renderUpdated (cfg : Config) (e0 : DiscordEmbed) (data activity : JObj)
    (name field0 : String) : DiscordEmbed :=
  let e1 := { e0 with
    color := 4093438
    title := name }
  let oldV0 := goFmtV (jGet activity "old_value")
  let newV0 := goFmtV (jGet activity "new_value")
  let oldV1 := if field0 == "priority" then prioLookup oldV0 else oldV0
  let newV1 := if field0 == "priority" then prioLookup newV0 else newV0
  let s1 : String × String × String :=
    if field0 == "state_id" || field0 == "state" then normalizeState data oldV1 newV1
    else (field0, oldV1, newV1)
  let s2 : String × String × String :=
    if s1.1 == "assignee_ids" then normalizeAssignees data s1.2.1 else s1
  let th : Option EmbedImage :=
    if s1.1 == "assignee_ids" then
      match firstAvatarThumb cfg.appURL (asArr (jGet data "assignees")) with
      | some t => some t
      | none => e1.thumbnail
    else e1.thumbnail
  { e1 with
    thumbnail := th
    description := "Field **" ++ s2.1 ++ "** changed."
    fields := e1.fields ++ [⟨"Change", "`" ++ s2.2.1 ++ "` → `" ++ s2.2.2 ++ "`", false⟩] }

/-- Resolve the comment's issue title (src/main.go lines 298-303):
`data.issue_detail.name` when present and a string, else "Issue Update". -/
def commentIssueName (data : JObj) : String :=
  match jGet data "issue_detail" with
  | JValue.obj issue =>
      match jGet issue "name" with
      | JValue.str n => n
      | _ => "Issue Update"
  | _ => "Issue Update"

/-- The `issue_comment` branch (src/main.go lines 286-306). -/
def renderComment (e0 : DiscordEmbed) (actorName : String) (data : JObj) : DiscordEmbed :=
  let e1 := { e0 with color := 8184715 }
  let e2 := setAuthorName e1
    (if actorName == "" then "New Comment" else actorName ++ " commented")
  { e2 with
    description := asStr (jGet data "comment_stripped")
    title := commentIssueName data
    fields := e2.fields ++ [⟨"Issue ID", goFmtV (jGet data "issue"), true⟩] }

/-- The final empty-content gate and emission (src/main.go lines 314-322): a
handled embed with both title and description empty is acknowledged with 200
but never handed to `sendToDiscord`. -/
def finishEmbed (e : DiscordEmbed) (st : LastUpdated) : HandlerResult :=
  if e.title == "" && e.description == "" then ⟨200, none, st⟩
  else ⟨200, some e, st⟩

/-- The `event == "issue"` dispatch (src/main.go lines 157-285): the debounce
check-and-set runs first on `updated`, then the field whitelist, then
rendering; unknown actions are acknowledged without emission. -/
def handleIssue (cfg : Config) (e0 : DiscordEmbed) (actorName action : String)
    (data activity : JObj) (st : LastUpdated) (now : Int) : HandlerResult :=
  let issueID := goFmtV (jGet data "id")
  let name := asStr (jGet data "name")
  if action == "created" then finishEmbed (renderCreated e0 actorName data name) st
  else if action == "deleted" then finishEmbed (renderDeleted e0 actorName issueID) st
  else if action == "updated" then
    if now < luGet st issueID + 2 then ⟨200, none, st⟩
    else
      let st1 := luSet st issueID now
      let field0 := goFmtV (jGet activity "field")
      if allowedField field0 then
        finishEmbed (renderUpdated cfg e0 data activity name field0) st1
      else ⟨200, none, st1⟩
  else ⟨200, none, st⟩

/-- Event classification (src/main.go lines 157, 286, 308-312): `issue`,
`issue_comment`, or an unhandled event acknowledged without emission. -/
def dispatch (cfg : Config) (event action : String) (data activity : JObj)
    (st : LastUpdated) (now : Int) : HandlerResult :=
  let e0 := baseEmbed cfg activity
  if event == "issue" then
    handleIssue cfg e0 (actorNameOf activity) action data activity st now
  else if event == "issue_comment" then
    finishEmbed (renderComment e0 (actorNameOf activity) data) st
  else ⟨200, none, st⟩

/-- The function `webhookHandler` (src/main.go lines 107-323) over one request: reject with
403 on a bad signature, otherwise process the parsed payload `p` (the
`json.Unmarshal` of `body`; a failed unmarshal leaves the nil map, i.e. `[]`).
`deliveryFails` stands for the outcome of the outbound `sendToDiscord` POST,
which the source only logs (lines 99-104), so no output reads it. -/
def webhookHandler (cfg : Config) (body signature : List Nat) (p : JObj)
    (st : LastUpdated) (now : Int) (deliveryFails : Bool) : HandlerResult :=
  if verifySignature cfg.webhookSecret body signature then
    dispatch cfg (asStr (jGet p "event")) (asStr (jGet p "action"))
      (asObj (jGet p "data")) (asObj (jGet p "activity")) st now
  else ⟨403, none, st⟩

/- ### Concrete requests used to exercise the handler -/

/-- A configuration with verification disabled (empty secret). -/
def cfgW : Config := ⟨"Workspace", "https://plane.so", []⟩

/-- An issue-created payload, the spec's creation scenario. -/
def pCreatedW : JObj :=
  [("event", .str "issue"), ("action", .str "created"),
   ("data", .obj [("id", .str "1"), ("name", .str "Fix bug"),
     ("description_stripped", .str "desc"), ("priority", .str "high")])]

/-- An issue-updated payload changing the whitelisted field `priority`. -/
def pPrioW : JObj :=
  [("event", .str "issue"), ("action", .str "updated"),
   ("activity", .obj [("field", .str "priority"), ("old_value", .str "low"),
     ("new_value", .str "high")]),
   ("data", .obj [("id", .str "1"), ("name", .str "T")])]

/-- An issue-updated payload changing the non-whitelisted field `sort_order`. -/
def pSortW : JObj :=
  [("event", .str "issue"), ("action", .str "updated"),
   ("activity", .obj [("field", .str "sort_order")]),
   ("data", .obj [("id", .str "1")])]

/-- An issue-updated payload changing `state`, whose `data` carries no
`state` object to read a display name from. -/
def pStateW : JObj :=
  [("event", .str "issue"), ("action", .str "updated"),
   ("activity", .obj [("field", .str "state"), ("old_value", .str "old-id-123"),
     ("new_value", .str "raw-id-456")]),
   ("data", .obj [("id", .str "1"), ("name", .str "T")])]

/-- An issue-updated payload changing `assignee_ids`, the spec's assignee
scenario with a root-relative avatar. -/
def pAssigneeW : JObj :=
  [("event", .str "issue"), ("action", .str "updated"),
   ("activity", .obj [("field", .str "assignee_ids"), ("old_value", .str "[]"),
     ("new_value", .str "[2]")]),
   ("data", .obj [("id", .str "1"), ("name", .str "T"),
     ("assignees", .arr [.obj [("display_name", .str "Ann"), ("avatar", .str "/a.png")]])])]

/-- A comment payload with a nonempty body and a resolvable issue title. -/
def pCommentW : JObj :=
  [("event", .str "issue_comment"),
   ("data", .obj [("comment_stripped", .str "hi"), ("issue", .str "9"),
     ("issue_detail", .obj [("name", .str "Fix bug")])])]

/-- A comment payload with no data at all: the stripped body defaults to `""`
and the issue title is unresolvable. -/
def pCommentEmptyW : JObj := [("event", .str "issue_comment")]

/-- A comment payload whose issue title resolves — to the empty string — and
whose stripped body is empty. -/
def pCommentBlankTitleW : JObj :=
  [("event", .str "issue_comment"),
   ("data", .obj [("issue_detail", .obj [("name", .str "")])])]

/- ### General lemmas about the handler's pieces -/

/-- An update's templated description sentence is never empty. -/
theorem fieldChanged_ne_empty (f : String) : ("Field **" ++ f ++ "** changed.") ≠ "" := by
  intro h
  have h2 := congrArg String.data h
  simp [String.data_append] at h2

/-- The final gate always acknowledges with 200. -/
theorem finishEmbed_status (e : DiscordEmbed) (st : LastUpdated) :
    (finishEmbed e st).status = 200 := by
  unfold finishEmbed; split <;> rfl

/-- The final gate does not touch the debounce state. -/
theorem finishEmbed_lastUpdated (e : DiscordEmbed) (st : LastUpdated) :
    (finishEmbed e st).lastUpdated = st := by
  unfold finishEmbed; split <;> rfl

/-- Whatever the final gate emits is the rendered embed, and it has a title
or a description. -/
theorem finishEmbed_sent (e e' : DiscordEmbed) (st : LastUpdated)
    (h : (finishEmbed e st).sent = some e') :
    e' = e ∧ (e.title ≠ "" ∨ e.description ≠ "") := by
  unfold finishEmbed at h
  split at h
  · simp at h
  · next hcond =>
      simp at h
      subst h
      refine ⟨rfl, ?_⟩
      rw [Bool.and_eq_true, beq_iff_eq, beq_iff_eq] at hcond
      exact not_and_or.mp hcond

/-- An embed with a nonempty description passes the final gate. -/
theorem finishEmbed_sent_of_desc (e : DiscordEmbed) (st : LastUpdated)
    (h : e.description ≠ "") : (finishEmbed e st).sent = some e := by
  unfold finishEmbed
  rw [if_neg]
  simp [Bool.and_eq_true, beq_iff_eq]
  exact fun _ => h

/-- An embed with a nonempty title passes the final gate. -/
theorem finishEmbed_sent_of_title (e : DiscordEmbed) (st : LastUpdated)
    (h : e.title ≠ "") : (finishEmbed e st).sent = some e := by
  unfold finishEmbed
  rw [if_neg]
  simp [Bool.and_eq_true, beq_iff_eq]
  exact fun ht => absurd ht h

/-- A fresh debounce map holds 0 for every id. -/
theorem luGet_nil (k : String) : luGet [] k = 0 := rfl

/-- Reading back the id just recorded gives the recorded time. -/
theorem luGet_luSet_self (st : LastUpdated) (k : String) (v : Int) :
    luGet (luSet st k v) k = v := by
  simp [luGet, luSet, List.lookup]

/-- After a valid signature the handler is the event dispatcher on the parsed
payload. -/
theorem webhookHandler_auth_pass (cfg : Config) (body sig : List Nat) (p : JObj)
    (st : LastUpdated) (now : Int) (df : Bool)
    (hv : verifySignature cfg.webhookSecret body sig = true) :
    webhookHandler cfg body sig p st now df =
      dispatch cfg (asStr (jGet p "event")) (asStr (jGet p "action"))
        (asObj (jGet p "data")) (asObj (jGet p "activity")) st now := by
  simp [webhookHandler, hv]

/-- On an `issue`/`updated` request the dispatcher is the debounce gate, then
the whitelist gate, then the update renderer. -/
theorem dispatch_issue_updated (cfg : Config) (event action : String)
    (data activity : JObj) (st : LastUpdated) (now : Int)
    (he : event = "issue") (ha : action = "updated") :
    dispatch cfg event action data activity st now =
      (if now < luGet st (goFmtV (jGet data "id")) + 2 then ⟨200, none, st⟩
       else if allowedField (goFmtV (jGet activity "field")) then
         finishEmbed
           (renderUpdated cfg (baseEmbed cfg activity) data activity
             (asStr (jGet data "name")) (goFmtV (jGet activity "field")))
           (luSet st (goFmtV (jGet data "id")) now)
       else ⟨200, none, luSet st (goFmtV (jGet data "id")) now⟩) := by
  subst he ha
  simp [dispatch, handleIssue]

/-- On an `issue_comment` request the dispatcher renders the comment. -/
theorem dispatch_comment (cfg : Config) (event action : String)
    (data activity : JObj) (st : LastUpdated) (now : Int)
    (he : event = "issue_comment") :
    dispatch cfg event action data activity st now =
      finishEmbed (renderComment (baseEmbed cfg activity) (actorNameOf activity) data) st := by
  subst he
  simp [dispatch]

/-- Every dispatch outcome carries status 200. -/
theorem dispatch_status (cfg : Config) (event action : String) (data activity : JObj)
    (st : LastUpdated) (now : Int) :
    (dispatch cfg event action data activity st now).status = 200 := by
  simp only [dispatch, handleIssue]
  repeat' split
  all_goals first | rfl | exact finishEmbed_status _ _

/-- Every embed the dispatcher emits has a title or a description. -/
theorem dispatch_sent_ne_empty (cfg : Config) (event action : String)
    (data activity : JObj) (st : LastUpdated) (now : Int) (e : DiscordEmbed)
    (h : (dispatch cfg event action data activity st now).sent = some e) :
    e.title ≠ "" ∨ e.description ≠ "" := by
  simp only [dispatch, handleIssue] at h
  repeat' split at h
  all_goals
    first
    | (obtain ⟨rfl, h2⟩ := finishEmbed_sent _ _ _ h; exact h2)
    | exact absurd h (by simp)

/-- The update renderer's description is the templated sentence. -/
theorem renderUpdated_description (cfg : Config) (e0 : DiscordEmbed)
    (data activity : JObj) (name field0 : String) :
    ∃ f, (renderUpdated cfg e0 data activity name field0).description =
         "Field **" ++ f ++ "** changed." := ⟨_, rfl⟩

/-- A rendered update always passes the final gate: its description is the
(nonempty) templated sentence. -/
theorem renderUpdated_sent (cfg : Config) (e0 : DiscordEmbed)
    (data activity : JObj) (name field0 : String) (st : LastUpdated) :
    (finishEmbed (renderUpdated cfg e0 data activity name field0) st).sent
      = some (renderUpdated cfg e0 data activity name field0) := by
  apply finishEmbed_sent_of_desc
  obtain ⟨f, hd⟩ := renderUpdated_description cfg e0 data activity name field0
  rw [hd]
  exact fieldChanged_ne_empty f

/- ### Claim C1 -/

/-- Claim C1: the correctly keyed hex HMAC-SHA-256 of the body always
verifies; with a nonempty secret, verification succeeds exactly on that one
signature; with an empty secret every signature verifies. -/
theorem verifySignature_correct :
    (∀ body secret, verifySignature secret body
        (hexEncodeBytes (hmacSha256 secret body)) = true) ∧
    (∀ body sig secret, secret ≠ [] →
        (verifySignature secret body sig = true ↔
         sig = hexEncodeBytes (hmacSha256 secret body))) ∧
    (∀ body sig, verifySignature [] body sig = true) := by
  refine ⟨?_, ?_, ?_⟩
  · intro body secret
    by_cases h : secret = []
    · simp [verifySignature, h]
    · simp [verifySignature, h, hmacEqual]
  · intro body sig secret h
    unfold verifySignature hmacEqual
    rw [if_neg h]
    constructor
    · intro hh
      exact (beq_iff_eq.mp hh).symm
    · intro hh
      exact beq_iff_eq.mpr hh.symm
  · intro body sig
    simp [verifySignature]

/-- Witness for C1 at a concrete one-byte secret and body. -/
theorem verifySignature_correct_witness :
    verifySignature [107] [97] (hexEncodeBytes (hmacSha256 [107] [97])) = true ∧
    (verifySignature [107] [97] [] = true ↔
     ([] : List Nat) = hexEncodeBytes (hmacSha256 [107] [97])) :=
  ⟨verifySignature_correct.1 [97] [107],
   verifySignature_correct.2.1 [97] [] [107] (by decide)⟩

/- ### Claim C2 -/

/-- Claim C2: from a fresh debounce state, two authenticated whitelisted
`issue`/`updated` requests for the same entity id arriving less than 2
seconds apart (Unix-second wall clock) emit exactly once — the first emits,
the second is dropped — while 2 or more seconds apart both emit. The guard
`2 ≤ t1` only keeps the first arrival out of the map's default 0 window. -/
theorem debounce_window :
    ∀ (cfg : Config) (body1 sig1 body2 sig2 : List Nat) (p1 p2 : JObj)
      (id : String) (t1 t2 : Int) (df1 df2 : Bool),
      verifySignature cfg.webhookSecret body1 sig1 = true →
      verifySignature cfg.webhookSecret body2 sig2 = true →
      asStr (jGet p1 "event") = "issue" →
      asStr (jGet p1 "action") = "updated" →
      asStr (jGet p2 "event") = "issue" →
      asStr (jGet p2 "action") = "updated" →
      goFmtV (jGet (asObj (jGet p1 "data")) "id") = id →
      goFmtV (jGet (asObj (jGet p2 "data")) "id") = id →
      allowedField (goFmtV (jGet (asObj (jGet p1 "activity")) "field")) = true →
      allowedField (goFmtV (jGet (asObj (jGet p2 "activity")) "field")) = true →
      2 ≤ t1 →
      ((t2 < t1 + 2 →
          (webhookHandler cfg body1 sig1 p1 [] t1 df1).sent.isSome = true ∧
          (webhookHandler cfg body2 sig2 p2
            (webhookHandler cfg body1 sig1 p1 [] t1 df1).lastUpdated t2 df2).sent = none) ∧
       (t1 + 2 ≤ t2 →
          (webhookHandler cfg body1 sig1 p1 [] t1 df1).sent.isSome = true ∧
          (webhookHandler cfg body2 sig2 p2
            (webhookHandler cfg body1 sig1 p1 [] t1 df1).lastUpdated t2 df2).sent.isSome = true)) := by
  intro cfg body1 sig1 body2 sig2 p1 p2 id t1 t2 df1 df2 hv1 hv2 he1 ha1 he2 ha2
    hid1 hid2 hf1 hf2 ht1
  have hr1 : webhookHandler cfg body1 sig1 p1 [] t1 df1 =
      finishEmbed
        (renderUpdated cfg (baseEmbed cfg (asObj (jGet p1 "activity")))
          (asObj (jGet p1 "data")) (asObj (jGet p1 "activity"))
          (asStr (jGet (asObj (jGet p1 "data")) "name"))
          (goFmtV (jGet (asObj (jGet p1 "activity")) "field")))
        (luSet [] id t1) := by
    rw [webhookHandler_auth_pass _ _ _ _ _ _ _ hv1,
        dispatch_issue_updated _ _ _ _ _ _ _ he1 ha1, hid1,
        if_neg (by rw [luGet_nil]; omega), if_pos hf1]
  have hr1sent : (webhookHandler cfg body1 sig1 p1 [] t1 df1).sent.isSome = true := by
    rw [hr1, renderUpdated_sent]
    rfl
  have hr1st : (webhookHandler cfg body1 sig1 p1 [] t1 df1).lastUpdated =
      luSet [] id t1 := by
    rw [hr1, finishEmbed_lastUpdated]
  constructor
  · intro hlt
    refine ⟨hr1sent, ?_⟩
    rw [hr1st, webhookHandler_auth_pass _ _ _ _ _ _ _ hv2,
        dispatch_issue_updated _ _ _ _ _ _ _ he2 ha2, hid2,
        luGet_luSet_self, if_pos hlt]
  · intro hge
    refine ⟨hr1sent, ?_⟩
    rw [hr1st, webhookHandler_auth_pass _ _ _ _ _ _ _ hv2,
        dispatch_issue_updated _ _ _ _ _ _ _ he2 ha2, hid2,
        luGet_luSet_self, if_neg (by omega), if_pos hf2, renderUpdated_sent]
    rfl

/-- Witness for C2: the priority-update request at seconds 10 and 11 emits
once; at seconds 10 and 12 it emits twice. -/
theorem debounce_window_witness :
    ((webhookHandler cfgW [] [] pPrioW [] 10 false).sent.isSome = true ∧
     (webhookHandler cfgW [] [] pPrioW
       (webhookHandler cfgW [] [] pPrioW [] 10 false).lastUpdated 11 false).sent = none) ∧
    ((webhookHandler cfgW [] [] pPrioW [] 10 false).sent.isSome = true ∧
     (webhookHandler cfgW [] [] pPrioW
       (webhookHandler cfgW [] [] pPrioW [] 10 false).lastUpdated 12 false).sent.isSome = true) := by
  constructor
  · exact (debounce_window cfgW [] [] [] [] pPrioW pPrioW "1" 10 11 false false
      (by decide) (by decide) (by decide) (by decide) (by decide) (by decide)
      (by decide) (by decide) (by decide) (by decide) (by decide)).1 (by decide)
  · exact (debounce_window cfgW [] [] [] [] pPrioW pPrioW "1" 10 12 false false
      (by decide) (by decide) (by decide) (by decide) (by decide) (by decide)
      (by decide) (by decide) (by decide) (by decide) (by decide)).2 (by decide)

/- ### Claim C3 -/

/-- Claim C3 as stated is false at a concrete `sort_order` update: the
request is dropped with a 200 and no emission, but a side effect remains —
the entity's debounce timestamp is recorded, because the debounce
check-and-set (src/main.go lines 185-192) runs before the whitelist test
(lines 196-209). -/
theorem whitelist_drop_counterexample :
    (webhookHandler cfgW [] [] pSortW [] 5 false).sent = none ∧
    (webhookHandler cfgW [] [] pSortW [] 5 false).status = 200 ∧
    luGet (webhookHandler cfgW [] [] pSortW [] 5 false).lastUpdated "1" = 5 ∧
    luGet (webhookHandler cfgW [] [] pSortW [] 5 false).lastUpdated "1" ≠
      luGet [] "1" := by
  refine ⟨?_, ?_, ?_, ?_⟩ <;> decide

/-- Claim C3 amended: an authenticated `issue`/`updated` request with a
non-whitelisted changed field that passes the debounce gate is dropped
silently — nothing emitted, 200 to the caller — but the entity's debounce
timestamp is set to the arrival time. -/
theorem whitelist_drop :
    ∀ (cfg : Config) (body sig : List Nat) (p : JObj) (st : LastUpdated)
      (now : Int) (df : Bool),
      verifySignature cfg.webhookSecret body sig = true →
      asStr (jGet p "event") = "issue" →
      asStr (jGet p "action") = "updated" →
      allowedField (goFmtV (jGet (asObj (jGet p "activity")) "field")) = false →
      ¬ now < luGet st (goFmtV (jGet (asObj (jGet p "data")) "id")) + 2 →
      webhookHandler cfg body sig p st now df =
        ⟨200, none, luSet st (goFmtV (jGet (asObj (jGet p "data")) "id")) now⟩ ∧
      luGet (webhookHandler cfg body sig p st now df).lastUpdated
        (goFmtV (jGet (asObj (jGet p "data")) "id")) = now := by
  intro cfg body sig p st now df hv he ha hf hdeb
  have hres : webhookHandler cfg body sig p st now df =
      ⟨200, none, luSet st (goFmtV (jGet (asObj (jGet p "data")) "id")) now⟩ := by
    rw [webhookHandler_auth_pass _ _ _ _ _ _ _ hv,
        dispatch_issue_updated _ _ _ _ _ _ _ he ha,
        if_neg hdeb, if_neg (by simp [hf])]
  refine ⟨hres, ?_⟩
  rw [hres]
  exact luGet_luSet_self _ _ _

/-- Witness for the amended C3 at the concrete `sort_order` update. -/
theorem whitelist_drop_witness :
    webhookHandler cfgW [] [] pSortW [] 5 false =
      ⟨200, none, luSet [] (goFmtV (jGet (asObj (jGet pSortW "data")) "id")) 5⟩ ∧
    luGet (webhookHandler cfgW [] [] pSortW [] 5 false).lastUpdated
      (goFmtV (jGet (asObj (jGet pSortW "data")) "id")) = 5 :=
  whitelist_drop cfgW [] [] pSortW [] 5 false (by decide) (by decide) (by decide)
    (by decide) (by decide)

/- ### Claim C4 -/

/-- Claim C4: a rendered document with both title and description empty is
acknowledged with 200 and never handed to delivery, and consequently every
emitted embed has a title or a description. -/
theorem empty_document_discard :
    (∀ (e : DiscordEmbed) (st : LastUpdated), e.title = "" → e.description = "" →
        finishEmbed e st = ⟨200, none, st⟩) ∧
    (∀ (cfg : Config) (body sig : List Nat) (p : JObj) (st : LastUpdated)
       (now : Int) (df : Bool) (e : DiscordEmbed),
        (webhookHandler cfg body sig p st now df).sent = some e →
        e.title ≠ "" ∨ e.description ≠ "") := by
  constructor
  · intro e st h1 h2
    simp [finishEmbed, h1, h2]
  · intro cfg body sig p st now df e h
    unfold webhookHandler at h
    split at h
    · exact dispatch_sent_ne_empty _ _ _ _ _ _ _ _ h
    · simp at h

/-- Witness for C4 at a concrete empty embed. -/
theorem empty_document_discard_witness :
    finishEmbed ⟨"", "", 0, none, none, none, []⟩ [] = ⟨200, none, []⟩ :=
  empty_document_discard.1 ⟨"", "", 0, none, none, none, []⟩ [] rfl rfl

/- ### Claim C5 -/

/-- Claim C5: once the signature verifies, the caller gets 200 whatever the
outbound delivery does (the result never depends on the delivery outcome);
a failed signature yields 403 with nothing emitted and the state untouched. -/
theorem ack_policy :
    ∀ (cfg : Config) (body sig : List Nat) (p : JObj) (st : LastUpdated) (now : Int),
      (verifySignature cfg.webhookSecret body sig = true →
        ∀ df, (webhookHandler cfg body sig p st now df).status = 200) ∧
      (∀ df df2, webhookHandler cfg body sig p st now df =
        webhookHandler cfg body sig p st now df2) ∧
      (verifySignature cfg.webhookSecret body sig = false →
        ∀ df, webhookHandler cfg body sig p st now df = ⟨403, none, st⟩) := by
  intro cfg body sig p st now
  refine ⟨?_, ?_, ?_⟩
  · intro hv df
    rw [webhookHandler_auth_pass _ _ _ _ _ _ _ hv]
    exact dispatch_status _ _ _ _ _ _ _
  · intro df df2
    rfl
  · intro hv df
    simp [webhookHandler, hv]

/-- Witness for C5: a concrete authenticated request is acknowledged with 200
even when delivery fails. -/
theorem ack_policy_witness :
    (webhookHandler cfgW [] [] pCreatedW [] 5 true).status = 200 :=
  (ack_policy cfgW [] [] pCreatedW [] 5).1 (by decide) true

/- ### Claim C6 -/

/-- Claim C6: a value that is absent or JSON null renders as the one fixed
sentinel `<nil>` at every rendering call site — the created description, the
deleted entity identifier, an update's raw old and new values, and the
comment's issue identifier all render through the same `%v` formatting. -/
theorem null_sentinel :
    (∀ (m : JObj) (k : String),
        List.lookup k m = none ∨ List.lookup k m = some JValue.null →
        goFmtV (jGet m k) = "<nil>") ∧
    (∀ (e0 : DiscordEmbed) (an : String) (data : JObj) (nm : String),
        List.lookup "description_stripped" data = none ∨
        List.lookup "description_stripped" data = some JValue.null →
        (renderCreated e0 an data nm).description = "<nil>") ∧
    (∀ (e0 : DiscordEmbed) (an : String) (data : JObj),
        List.lookup "id" data = none ∨ List.lookup "id" data = some JValue.null →
        (renderDeleted e0 an (goFmtV (jGet data "id"))).description = "ID: `<nil>`") ∧
    (∀ (activity : JObj),
        List.lookup "old_value" activity = none ∨
        List.lookup "old_value" activity = some JValue.null →
        goFmtV (jGet activity "old_value") = "<nil>") ∧
    (∀ (activity : JObj),
        List.lookup "new_value" activity = none ∨
        List.lookup "new_value" activity = some JValue.null →
        goFmtV (jGet activity "new_value") = "<nil>") ∧
    (∀ (data : JObj),
        List.lookup "issue" data = none ∨ List.lookup "issue" data = some JValue.null →
        goFmtV (jGet data "issue") = "<nil>") := by
  have base : ∀ (m : JObj) (k : String),
      List.lookup k m = none ∨ List.lookup k m = some JValue.null →
      goFmtV (jGet m k) = "<nil>" := by
    intro m k h
    rcases h with h | h <;> simp [jGet, h, goFmtV]
  refine ⟨base, ?_, ?_, fun a h => base a _ h, fun a h => base a _ h,
    fun d h => base d _ h⟩
  · intro e0 an data nm h
    have hc : (renderCreated e0 an data nm).description =
        goFmtV (jGet data "description_stripped") := rfl
    rw [hc, base data _ h]
  · intro e0 an data h
    have hd : (renderDeleted e0 an (goFmtV (jGet data "id"))).description =
        "ID: `" ++ goFmtV (jGet data "id") ++ "`" := rfl
    rw [hd, base data _ h]
    rfl

/-- Witness for C6 at an absent key and at an explicit null. -/
theorem null_sentinel_witness :
    goFmtV (jGet [] "id") = "<nil>" ∧
    goFmtV (jGet [("id", JValue.null)] "id") = "<nil>" :=
  ⟨null_sentinel.1 [] "id" (Or.inl rfl),
   null_sentinel.1 [("id", JValue.null)] "id" (Or.inr rfl)⟩

/- ### Claim C7 -/

/-- The created branch colors the embed 8184715. -/
theorem renderCreated_color (e0 : DiscordEmbed) (an : String) (data : JObj)
    (nm : String) : (renderCreated e0 an data nm).color = 8184715 := rfl

/-- The deleted branch colors the embed 16415088. -/
theorem renderDeleted_color (e0 : DiscordEmbed) (an issueID : String) :
    (renderDeleted e0 an issueID).color = 16415088 := rfl

/-- The updated branch colors the embed 4093438. -/
theorem renderUpdated_color (cfg : Config) (e0 : DiscordEmbed)
    (data activity : JObj) (name field0 : String) :
    (renderUpdated cfg e0 data activity name field0).color = 4093438 := rfl

/-- The comment branch colors the embed 8184715 — the creation color. -/
theorem renderComment_color (e0 : DiscordEmbed) (an : String) (data : JObj) :
    (renderComment e0 an data).color = 8184715 := rfl

/-- On an `issue`/`created` request the dispatcher renders the creation. -/
theorem dispatch_issue_created (cfg : Config) (event action : String)
    (data activity : JObj) (st : LastUpdated) (now : Int)
    (he : event = "issue") (ha : action = "created") :
    dispatch cfg event action data activity st now =
      finishEmbed (renderCreated (baseEmbed cfg activity) (actorNameOf activity)
        data (asStr (jGet data "name"))) st := by
  subst he ha
  simp [dispatch, handleIssue]

/-- On an `issue`/`deleted` request the dispatcher renders the deletion. -/
theorem dispatch_issue_deleted (cfg : Config) (event action : String)
    (data activity : JObj) (st : LastUpdated) (now : Int)
    (he : event = "issue") (ha : action = "deleted") :
    dispatch cfg event action data activity st now =
      finishEmbed (renderDeleted (baseEmbed cfg activity) (actorNameOf activity)
        (goFmtV (jGet data "id"))) st := by
  subst he ha
  simp [dispatch, handleIssue]

/-- Claim C7 as stated is false at concrete requests: a comment embed carries
8184715, the same constant as creation, and not the update constant 4093438 —
update and comment do not share a color. -/
theorem accent_color_counterexample :
    (webhookHandler cfgW [] [] pCommentW [] 5 false).sent.map DiscordEmbed.color =
      some 8184715 ∧
    (webhookHandler cfgW [] [] pCreatedW [] 5 false).sent.map DiscordEmbed.color =
      some 8184715 ∧
    (webhookHandler cfgW [] [] pPrioW [] 5 false).sent.map DiscordEmbed.color =
      some 4093438 ∧
    (webhookHandler cfgW [] [] pCommentW [] 5 false).sent.map DiscordEmbed.color ≠
      (webhookHandler cfgW [] [] pPrioW [] 5 false).sent.map DiscordEmbed.color := by
  refine ⟨?_, ?_, ?_, ?_⟩ <;> decide

/-- Claim C7 amended: the accent color is a fixed constant per (event,
action): issue creation and comments share 8184715, issue deletion uses
16415088, and issue updates use 4093438; the three constants are pairwise
distinct. -/
theorem accent_color :
    (∀ (cfg : Config) (body sig : List Nat) (p : JObj) (st : LastUpdated)
       (now : Int) (df : Bool) (e : DiscordEmbed),
        (webhookHandler cfg body sig p st now df).sent = some e →
        ((asStr (jGet p "event") = "issue" → asStr (jGet p "action") = "created" →
            e.color = 8184715) ∧
         (asStr (jGet p "event") = "issue" → asStr (jGet p "action") = "deleted" →
            e.color = 16415088) ∧
         (asStr (jGet p "event") = "issue" → asStr (jGet p "action") = "updated" →
            e.color = 4093438) ∧
         (asStr (jGet p "event") = "issue_comment" → e.color = 8184715))) ∧
    ((8184715 : Nat) ≠ 16415088 ∧ (8184715 : Nat) ≠ 4093438 ∧
     (16415088 : Nat) ≠ 4093438) := by
  constructor
  · intro cfg body sig p st now df e h
    unfold webhookHandler at h
    split at h
    case isFalse => simp at h
    case isTrue =>
      refine ⟨?_, ?_, ?_, ?_⟩
      · intro he ha
        rw [dispatch_issue_created _ _ _ _ _ _ _ he ha] at h
        obtain ⟨rfl, _⟩ := finishEmbed_sent _ _ _ h
        exact renderCreated_color _ _ _ _
      · intro he ha
        rw [dispatch_issue_deleted _ _ _ _ _ _ _ he ha] at h
        obtain ⟨rfl, _⟩ := finishEmbed_sent _ _ _ h
        exact renderDeleted_color _ _ _
      · intro he ha
        rw [dispatch_issue_updated _ _ _ _ _ _ _ he ha] at h
        split at h
        · simp at h
        · split at h
          · obtain ⟨rfl, _⟩ := finishEmbed_sent _ _ _ h
            exact renderUpdated_color _ _ _ _ _ _
          · simp at h
      · intro he
        rw [dispatch_comment _ _ _ _ _ _ _ he] at h
        obtain ⟨rfl, _⟩ := finishEmbed_sent _ _ _ h
        exact renderComment_color _ _ _
  · exact ⟨by decide, by decide, by decide⟩

/-- The embed the creation scenario emits. -/
def eCreatedW : DiscordEmbed :=
  ⟨"Fix bug", "desc", 8184715,
   some ⟨"Workspace", "https://plane.so/img/plane-icon.png"⟩, none,
   some ⟨"Plane Bridge", ""⟩, [⟨"Priority", "🟠 High", true⟩]⟩

/-- Witness for the amended C7 at the concrete creation request. -/
theorem accent_color_witness :
    (webhookHandler cfgW [] [] pCreatedW [] 5 false).sent = some eCreatedW ∧
    eCreatedW.color = 8184715 := by
  refine ⟨by decide, ?_⟩
  exact (accent_color.1 cfgW [] [] pCreatedW [] 5 false eCreatedW (by decide)).1
    (by decide) (by decide)

/- ### Claim C8 -/

/-- A state-field update renders the description with the name "State"
whatever the payload holds. -/
theorem renderUpdated_state_description (cfg : Config) (e0 : DiscordEmbed)
    (data activity : JObj) (name : String) (f : String)
    (hf : f = "state" ∨ f = "state_id") :
    (renderUpdated cfg e0 data activity name f).description =
      "Field **State** changed." := by
  rcases hf with rfl | rfl <;> rfl

/-- Claim C8 as stated is false at a concrete `state` update whose entity
data carries no `state` object: the emitted "Change" field reads
`` `Changed` → `raw-id-456` `` — the literal raw new state id, which the
claim says is never shown in place of a display name. -/
theorem state_display_counterexample :
    (webhookHandler cfgW [] [] pStateW [] 5 false).sent.map DiscordEmbed.fields =
      some [⟨"Change", "`Changed` → `raw-id-456`", false⟩] := by
  decide

/-- Claim C8 amended: on a `state`/`state_id` update the display field name
becomes "State"; the old display value collapses to "None" exactly when the
raw old value rendered as null/absent and to "Changed" otherwise (the prior
id is never shown); the new display value is the state's display name read
from the entity data when `data.state` is an object — and falls back to the
raw new value's textual form when it is not. -/
theorem state_display :
    (∀ (data : JObj) (oldV newV : String), (normalizeState data oldV newV).1 = "State") ∧
    (∀ (data : JObj) (oldV newV : String),
        (normalizeState data oldV newV).2.1 =
          if oldV == "null" || oldV == "<nil>" then "None" else "Changed") ∧
    (∀ (data : JObj) (oldV newV : String) (stf : JObj),
        jGet data "state" = JValue.obj stf →
        (normalizeState data oldV newV).2.2 = asStr (jGet stf "name")) ∧
    (∀ (data : JObj) (oldV newV : String),
        (jGet data "state").isObj = false →
        (normalizeState data oldV newV).2.2 = newV) ∧
    (∀ (cfg : Config) (body sig : List Nat) (p : JObj) (st : LastUpdated)
       (now : Int) (df : Bool),
        verifySignature cfg.webhookSecret body sig = true →
        asStr (jGet p "event") = "issue" →
        asStr (jGet p "action") = "updated" →
        (goFmtV (jGet (asObj (jGet p "activity")) "field") = "state" ∨
         goFmtV (jGet (asObj (jGet p "activity")) "field") = "state_id") →
        ¬ now < luGet st (goFmtV (jGet (asObj (jGet p "data")) "id")) + 2 →
        (webhookHandler cfg body sig p st now df).sent.map DiscordEmbed.description =
          some "Field **State** changed.") := by
  refine ⟨fun data oldV newV => rfl, fun data oldV newV => rfl, ?_, ?_, ?_⟩
  · intro data oldV newV stf h
    simp [normalizeState, h]
  · intro data oldV newV h
    unfold normalizeState
    cases hj : jGet data "state" <;> simp_all [JValue.isObj]
  · intro cfg body sig p st now df hv he ha hf hdeb
    have hall : allowedField (goFmtV (jGet (asObj (jGet p "activity")) "field")) = true := by
      rcases hf with hf | hf <;> rw [hf] <;> rfl
    rw [webhookHandler_auth_pass _ _ _ _ _ _ _ hv,
        dispatch_issue_updated _ _ _ _ _ _ _ he ha,
        if_neg hdeb, if_pos hall, renderUpdated_sent]
    simp only [Option.map_some']
    rw [renderUpdated_state_description _ _ _ _ _ _ hf]

/-- Witness for the amended C8 at the concrete `state` update. -/
theorem state_display_witness :
    (webhookHandler cfgW [] [] pStateW [] 5 false).sent.map DiscordEmbed.description =
      some "Field **State** changed." :=
  state_display.2.2.2.2 cfgW [] [] pStateW [] 5 false (by decide) (by decide)
    (by decide) (Or.inl (by decide)) (by decide)

/- ### Claim C9 -/

/-- Claim C9 as stated is false at a concrete comment with no data: the
stripped body defaults to empty and the issue title is unresolvable, yet the
rendered document carries the fallback title "Issue Update", so it is
emitted, not discarded. -/
theorem comment_fallback_counterexample :
    (webhookHandler cfgW [] [] pCommentEmptyW [] 5 false).sent.map DiscordEmbed.title =
      some "Issue Update" ∧
    (webhookHandler cfgW [] [] pCommentEmptyW [] 5 false).sent.map DiscordEmbed.description =
      some "" ∧
    (webhookHandler cfgW [] [] pCommentEmptyW [] 5 false).sent ≠ none := by
  refine ⟨?_, ?_, ?_⟩ <;> decide

/-- Claim C9 amended: an authenticated `issue_comment` whose stripped body is
empty and whose issue title is unresolvable renders with the fallback title
"Issue Update" and an empty description, and is therefore emitted with a 200,
not discarded. (Unresolvable means the fallback applied; a title that
resolves to the empty string is a different case — see
`comment_blank_title_discard_example`.) -/
theorem comment_fallback :
    ∀ (cfg : Config) (body sig : List Nat) (p : JObj) (st : LastUpdated)
      (now : Int) (df : Bool),
      verifySignature cfg.webhookSecret body sig = true →
      asStr (jGet p "event") = "issue_comment" →
      asStr (jGet (asObj (jGet p "data")) "comment_stripped") = "" →
      commentIssueName (asObj (jGet p "data")) = "Issue Update" →
      (webhookHandler cfg body sig p st now df).sent.map DiscordEmbed.title =
        some "Issue Update" ∧
      (webhookHandler cfg body sig p st now df).sent.map DiscordEmbed.description =
        some "" ∧
      (webhookHandler cfg body sig p st now df).status = 200 := by
  intro cfg body sig p st now df hv he hc hn
  have htitle : (renderComment (baseEmbed cfg (asObj (jGet p "activity")))
      (actorNameOf (asObj (jGet p "activity"))) (asObj (jGet p "data"))).title =
      commentIssueName (asObj (jGet p "data")) := rfl
  have hdesc : (renderComment (baseEmbed cfg (asObj (jGet p "activity")))
      (actorNameOf (asObj (jGet p "activity"))) (asObj (jGet p "data"))).description =
      asStr (jGet (asObj (jGet p "data")) "comment_stripped") := rfl
  have hsent : (finishEmbed (renderComment (baseEmbed cfg (asObj (jGet p "activity")))
      (actorNameOf (asObj (jGet p "activity"))) (asObj (jGet p "data"))) st).sent =
      some (renderComment (baseEmbed cfg (asObj (jGet p "activity")))
        (actorNameOf (asObj (jGet p "activity"))) (asObj (jGet p "data"))) := by
    apply finishEmbed_sent_of_title
    rw [htitle, hn]
    decide
  rw [webhookHandler_auth_pass _ _ _ _ _ _ _ hv, dispatch_comment _ _ _ _ _ _ _ he]
  refine ⟨?_, ?_, finishEmbed_status _ _⟩
  · rw [hsent]
    simp only [Option.map_some']
    rw [htitle, hn]
  · rw [hsent]
    simp only [Option.map_some']
    rw [hdesc, hc]

/-- Witness for the amended C9 at the concrete empty comment. -/
theorem comment_fallback_witness :
    (webhookHandler cfgW [] [] pCommentEmptyW [] 5 false).sent.map DiscordEmbed.title =
      some "Issue Update" ∧
    (webhookHandler cfgW [] [] pCommentEmptyW [] 5 false).sent.map DiscordEmbed.description =
      some "" ∧
    (webhookHandler cfgW [] [] pCommentEmptyW [] 5 false).status = 200 :=
  comment_fallback cfgW [] [] pCommentEmptyW [] 5 false (by decide) (by decide)
    (by decide) (by decide)

/-- The empty-document discard can still fire for a comment: when
`issue_detail.name` resolves to the empty string (so the fallback title does
not apply) and the stripped body is empty, title and description are both
empty and nothing is emitted. -/
theorem comment_blank_title_discard_example :
    (webhookHandler cfgW [] [] pCommentBlankTitleW [] 5 false).sent = none ∧
    (webhookHandler cfgW [] [] pCommentBlankTitleW [] 5 false).status = 200 := by
  refine ⟨?_, ?_⟩ <;> decide

/- ### Claim C10 -/

/-- The dispatch-time embed starts with no thumbnail. -/
theorem baseEmbed_thumbnail (cfg : Config) (activity : JObj) :
    (baseEmbed cfg activity).thumbnail = none := by
  simp only [baseEmbed]
  split <;> rfl

/-- The created branch leaves the thumbnail untouched. -/
theorem renderCreated_thumbnail (e0 : DiscordEmbed) (an : String) (data : JObj)
    (nm : String) : (renderCreated e0 an data nm).thumbnail = e0.thumbnail := by
  simp only [renderCreated, setAuthorName]
  split <;> rfl

/-- The deleted branch leaves the thumbnail untouched. -/
theorem renderDeleted_thumbnail (e0 : DiscordEmbed) (an issueID : String) :
    (renderDeleted e0 an issueID).thumbnail = e0.thumbnail := by
  simp only [renderDeleted, setAuthorName]
  split <;> rfl

/-- The comment branch leaves the thumbnail untouched. -/
theorem renderComment_thumbnail (e0 : DiscordEmbed) (an : String) (data : JObj) :
    (renderComment e0 an data).thumbnail = e0.thumbnail := rfl

/-- If an update renders a thumbnail, the changed field was `assignee_ids`
and the thumbnail is the first assignee's avatar reference. -/
theorem renderUpdated_thumbnail (cfg : Config) (e0 : DiscordEmbed)
    (data activity : JObj) (name field0 : String) (u : EmbedImage)
    (h0 : e0.thumbnail = none)
    (h : (renderUpdated cfg e0 data activity name field0).thumbnail = some u) :
    field0 = "assignee_ids" ∧
    firstAvatarThumb cfg.appURL (asArr (jGet data "assignees")) = some u := by
  by_cases hsel : (field0 == "state_id" || field0 == "state") = true
  · simp [renderUpdated, hsel, normalizeState, h0] at h
  · by_cases hass : (field0 == "assignee_ids") = true
    · refine ⟨eq_of_beq hass, ?_⟩
      simp [renderUpdated, hsel, hass, h0] at h
      cases hfat : firstAvatarThumb cfg.appURL (asArr (jGet data "assignees"))
      · rw [hfat] at h
        simp at h
      · rw [hfat] at h
        simp at h
        rw [h]
    · simp [renderUpdated, hsel, hass, h0] at h

/-- Claim C10: an emitted embed carries a thumbnail only on an
`issue`/`updated` request whose changed field is `assignee_ids`; the
thumbnail is then the first assignee's nonempty avatar reference, absolutized
against the base URL when root-relative; an empty assignee list yields none. -/
theorem thumbnail_only_assignees :
    (∀ (cfg : Config) (body sig : List Nat) (p : JObj) (st : LastUpdated)
       (now : Int) (df : Bool) (e : DiscordEmbed) (u : EmbedImage),
        (webhookHandler cfg body sig p st now df).sent = some e →
        e.thumbnail = some u →
        asStr (jGet p "event") = "issue" ∧
        asStr (jGet p "action") = "updated" ∧
        goFmtV (jGet (asObj (jGet p "activity")) "field") = "assignee_ids" ∧
        firstAvatarThumb cfg.appURL
          (asArr (jGet (asObj (jGet p "data")) "assignees")) = some u) ∧
    (∀ (appURL : String) (a0 : JValue) (rest : List JValue) (u : EmbedImage),
        firstAvatarThumb appURL (a0 :: rest) = some u →
        ∃ fm, a0 = JValue.obj fm ∧
          (let fav0 := asStr (jGet fm "avatar")
           let fav := if fav0 == "" then asStr (jGet fm "avatar_url") else fav0
           fav ≠ "" ∧ u = ⟨if startsWithSlash fav then appURL ++ fav else fav⟩)) ∧
    (∀ (appURL : String), firstAvatarThumb appURL [] = none) := by
  refine ⟨?_, ?_, fun appURL => rfl⟩
  · intro cfg body sig p st now df e u hsent hth
    unfold webhookHandler at hsent
    split at hsent
    case isFalse => simp at hsent
    case isTrue =>
      simp only [dispatch] at hsent
      split at hsent
      case isTrue hE =>
        simp only [handleIssue] at hsent
        split at hsent
        case isTrue hA =>
          obtain ⟨rfl, _⟩ := finishEmbed_sent _ _ _ hsent
          rw [renderCreated_thumbnail, baseEmbed_thumbnail] at hth
          simp at hth
        case isFalse =>
          split at hsent
          case isTrue hA =>
            obtain ⟨rfl, _⟩ := finishEmbed_sent _ _ _ hsent
            rw [renderDeleted_thumbnail, baseEmbed_thumbnail] at hth
            simp at hth
          case isFalse =>
            split at hsent
            case isTrue hA =>
              split at hsent
              case isTrue => simp at hsent
              case isFalse =>
                split at hsent
                case isTrue hW =>
                  obtain ⟨rfl, _⟩ := finishEmbed_sent _ _ _ hsent
                  obtain ⟨hfield, hfat⟩ := renderUpdated_thumbnail _ _ _ _ _ _ _
                    (baseEmbed_thumbnail _ _) hth
                  exact ⟨eq_of_beq hE, eq_of_beq hA, hfield, hfat⟩
                case isFalse => simp at hsent
            case isFalse => simp at hsent
      case isFalse =>
        split at hsent
        case isTrue hE =>
          obtain ⟨rfl, _⟩ := finishEmbed_sent _ _ _ hsent
          rw [renderComment_thumbnail, baseEmbed_thumbnail] at hth
          simp at hth
        case isFalse => simp at hsent
  · intro appURL a0 rest u h
    cases a0 <;> simp only [firstAvatarThumb] at h
    case null => exact absurd h (by simp)
    case str s => exact absurd h (by simp)
    case boolean b => exact absurd h (by simp)
    case num r => exact absurd h (by simp)
    case arr xs => exact absurd h (by simp)
    case obj fm =>
      refine ⟨fm, rfl, ?_⟩
      by_cases h0 : (asStr (jGet fm "avatar") == "") = true
      · simp only [h0, if_true] at h ⊢
        simp at h
        exact ⟨h.1, h.2.symm⟩
      · simp only [h0, if_false] at h ⊢
        simp [h0] at h
        refine ⟨by simpa using h0, h.symm⟩

/-- The embed the assignee scenario emits. -/
def eAssigneeW : DiscordEmbed :=
  ⟨"T", "Field **Assignees** changed.", 4093438,
   some ⟨"Workspace", "https://plane.so/img/plane-icon.png"⟩,
   some ⟨"https://plane.so/a.png"⟩, some ⟨"Plane Bridge", ""⟩,
   [⟨"Change", "`None` → `Ann`", false⟩]⟩

/-- Witness for C10 at the concrete assignee update. -/
theorem thumbnail_only_assignees_witness :
    (webhookHandler cfgW [] [] pAssigneeW [] 5 false).sent = some eAssigneeW ∧
    (asStr (jGet pAssigneeW "event") = "issue" ∧
     asStr (jGet pAssigneeW "action") = "updated" ∧
     goFmtV (jGet (asObj (jGet pAssigneeW "activity")) "field") = "assignee_ids" ∧
     firstAvatarThumb cfgW.appURL
       (asArr (jGet (asObj (jGet pAssigneeW "data")) "assignees")) =
       some ⟨"https://plane.so/a.png"⟩) := by
  refine ⟨by decide, ?_⟩
  exact thumbnail_only_assignees.1 cfgW [] [] pAssigneeW [] 5 false eAssigneeW
    ⟨"https://plane.so/a.png"⟩ (by decide) (by decide)

end Plane
